import Mathlib

/-!
Shallow embedding of src/main.py (pdf-to-epub-mail): a FastAPI service that
authorizes a bearer token, validates an uploaded PDF, converts it to EPUB via
an external `ebook-convert` subprocess inside a per-request temporary
directory, and emails the result over SMTP.

External effects (subprocess outcome, filesystem facts, SMTP steps) are
modelled by oracle values; the control flow, the checks, the error messages
and the ordering of effects are translated directly from the source.
-/

/-- Characters removed by Python `str.strip()` (ASCII whitespace). -/
def pyIsSpace (c : Char) : Bool :=
  c = ' ' || c = '\t' || c = '\n' || c = '\r' || c = '\x0b' || c = '\x0c'

/-- Python `s.strip()`: remove leading and trailing whitespace. -/
def pyStrip (s : String) : String :=
  String.mk (((s.data.dropWhile pyIsSpace).reverse.dropWhile pyIsSpace).reverse)

/-- Python `s.startswith(pre)`. -/
def pyStartswith (s pre : String) : Bool :=
  List.isPrefixOf pre.data s.data

/-- Python `s.split(" ", 1)[1]`: everything after the first space.
(The source only evaluates this when `s` contains a space, because it is
guarded by `s.startswith("Bearer ")`.) -/
def pySplitFirstSpaceTail (s : String) : String :=
  String.mk ((s.data.dropWhile (fun c => c ≠ ' ')).drop 1)

/-- Drop the first `n` characters of a string (Python `s[n:]`). -/
def strDrop (s : String) (n : Nat) : String :=
  String.mk (s.data.drop n)

/-- Python `s[-n:]`: the last `min n (length s)` characters of `s`. -/
def pyTail (s : String) (n : Nat) : String :=
  String.mk (s.data.drop (s.data.length - n))

/-- A raised `fastapi.HTTPException` (status code plus the `detail` string). -/
structure HTTPError where
  status : Nat
  detail : String
deriving DecidableEq

/-- Environment-derived configuration of src/main.py (module-level constants
`BEARER_TOKEN`, `KINDLE_EMAIL`, `SMTP_*`, `MAX_PDF_BYTES`). -/
structure Config where
  bearerToken : String
  kindleEmail : String
  smtpHost : String
  smtpPort : Nat
  smtpUser : String
  smtpPass : String
  smtpFrom : String
  smtpTLS : Bool
  maxPdfBytes : Nat
deriving DecidableEq

/-- `require_bearer(authorization)` from src/main.py lines 47-67.
Raised `HTTPException`s become `Except.error`; falling through is `Except.ok`.
The function is pure apart from logging, which the embedding omits. -/
def require_bearer (bearerToken : String) (authorization : Option String) :
    Except HTTPError Unit :=
  match authorization with
  | none => Except.error ⟨401, "Missing bearer token"⟩
  | some a =>
    -- Python `if not authorization:` is also taken by the empty string.
    if a = "" then Except.error ⟨401, "Missing bearer token"⟩
    else if pyStartswith a "Bearer " = false then
      Except.error ⟨401, "Missing bearer token"⟩
    else
      let token := pyStrip (pySplitFirstSpaceTail a)
      if token = "" then Except.error ⟨401, "Missing bearer token"⟩
      else if token ≠ bearerToken then Except.error ⟨403, "Invalid bearer token"⟩
      else Except.ok ()

/-- Outcome of `subprocess.run(cmd, check=True, ...)` in `pdf_to_epub`:
either the binary could not be started (`FileNotFoundError`), or the process
ran to completion with a return code and captured, decoded output streams. -/
inductive ProcResult where
  | notFound
  | completed (returncode : Int) (stdout : String) (stderr : String)
deriving DecidableEq

/-- Oracle for one `pdf_to_epub` run: the subprocess outcome plus the state
of the output path afterwards (`epub_path.exists()`, `epub_path.stat().st_size`). -/
structure ConvOracle where
  proc : ProcResult
  outputExists : Bool
  outputSize : Nat
deriving DecidableEq

/-- `pdf_to_epub(pdf_path, epub_path)` from src/main.py lines 70-97.
A raised `RuntimeError` becomes `Except.error` carrying `str(e)`.
The `ToolFailed` detail keeps only `stderr[-2000:]`. -/
def pdf_to_epub (o : ConvOracle) : Except String Unit :=
  match o.proc with
  | ProcResult.notFound =>
    Except.error "Conversion failed: ebook-convert not found (install calibre)"
  | ProcResult.completed rc _ err =>
    -- check=True: CalledProcessError exactly when the return code is nonzero
    if rc ≠ 0 then Except.error ("Conversion failed: " ++ pyTail err 2000)
    else if o.outputExists = false ∨ o.outputSize = 0 then
      Except.error "Conversion failed: output EPUB was not created"
    else Except.ok ()

/-- One observable network action of an SMTP session in
`send_email_with_attachment` / the fallback sender in `test_email`:
opening the connection (`smtplib.SMTP(host, port, timeout)`), `starttls()`,
`login(user, password)`, and `send_message` (with the recipient and whether
the message carries an attachment part). Events record attempts, in order. -/
inductive MailEvent where
  | connect (host : String) (port : Nat) (timeout : Nat)
  | starttls
  | login (user : String) (password : String)
  | send (toAddr : String) (withAttachment : Bool)
deriving DecidableEq

/-- Outcome of one SMTP step: it returns normally, or raises an exception
whose `str(e)` is `msg`. -/
inductive StepOutcome where
  | ok
  | exc (msg : String)
deriving DecidableEq

/-- Outcome of `s.login(...)`: normal return, an
`smtplib.SMTPAuthenticationError`, or any other exception. -/
inductive LoginOutcome where
  | ok
  | authError
  | exc (msg : String)
deriving DecidableEq

/-- Oracle for one SMTP session: what each network step would do if reached. -/
structure SmtpOracle where
  connect : StepOutcome
  starttls : StepOutcome
  login : LoginOutcome
  send : StepOutcome
deriving DecidableEq

/-- Final part of a session once connect/starttls succeeded: optional login,
then `send_message`. Shared by lines 140-145 and 240-245 of src/main.py. -/
def smtpAuthAndSend (cfg : Config) (toAddr : String) (withAtt : Bool)
    (o : SmtpOracle) (evs : List MailEvent) : Except String Unit × List MailEvent :=
  if cfg.smtpUser ≠ "" then
    let evs2 := evs ++ [MailEvent.login cfg.smtpUser cfg.smtpPass]
    match o.login with
    | LoginOutcome.authError =>
      (Except.error "Email failed: SMTP authentication failed (check SMTP_USER/SMTP_PASS)", evs2)
    | LoginOutcome.exc m => (Except.error ("Email failed: " ++ m), evs2)
    | LoginOutcome.ok =>
      match o.send with
      | StepOutcome.exc m =>
        (Except.error ("Email failed: " ++ m), evs2 ++ [MailEvent.send toAddr withAtt])
      | StepOutcome.ok => (Except.ok (), evs2 ++ [MailEvent.send toAddr withAtt])
  else
    match o.send with
    | StepOutcome.exc m =>
      (Except.error ("Email failed: " ++ m), evs ++ [MailEvent.send toAddr withAtt])
    | StepOutcome.ok => (Except.ok (), evs ++ [MailEvent.send toAddr withAtt])

/-- The `with smtplib.SMTP(SMTP_HOST, SMTP_PORT, timeout=30) as s:` block with
its two `except` clauses (src/main.py lines 134-152 and 236-245): connect,
optional `starttls`, optional `login`, `send_message`. `Except.ok ()` means
exactly one message was transmitted to `toAddr`. -/
def smtpSession (cfg : Config) (toAddr : String) (withAtt : Bool)
    (o : SmtpOracle) : Except String Unit × List MailEvent :=
  let evC := [MailEvent.connect cfg.smtpHost cfg.smtpPort 30]
  match o.connect with
  | StepOutcome.exc m => (Except.error ("Email failed: " ++ m), evC)
  | StepOutcome.ok =>
    if cfg.smtpTLS then
      match o.starttls with
      | StepOutcome.exc m =>
        (Except.error ("Email failed: " ++ m), evC ++ [MailEvent.starttls])
      | StepOutcome.ok =>
        smtpAuthAndSend cfg toAddr withAtt o (evC ++ [MailEvent.starttls])
    else
      smtpAuthAndSend cfg toAddr withAtt o evC

/-- `send_email_with_attachment(subject, body, to_addr, attachment_path)`
from src/main.py lines 100-154, with the attachment filesystem fact
(`attachment_path.exists()`) supplied by `attachmentExists`. The message is
always built with an attachment part (`msg.add_attachment(...)`).
A raised `RuntimeError` becomes `Except.error` carrying `str(e)`. -/
def send_email_with_attachment (cfg : Config) (toAddr : String)
    (attachmentExists : Bool) (o : SmtpOracle) : Except String Unit × List MailEvent :=
  if cfg.smtpHost = "" then (Except.error "SMTP_HOST is not set", [])
  else if attachmentExists = false then (Except.error "Attachment not found", [])
  else smtpSession cfg toAddr true o

/-- The full network-activity sequence of one SMTP session as configured:
connect with a 30-second timeout, then `starttls` when TLS is enabled, then
`login` when a username is configured, then message transmission. -/
def canonicalSessionTrace (cfg : Config) (toAddr : String) (withAtt : Bool) :
    List MailEvent :=
  [MailEvent.connect cfg.smtpHost cfg.smtpPort 30]
    ++ (if cfg.smtpTLS then [MailEvent.starttls] else [])
    ++ (if cfg.smtpUser ≠ "" then [MailEvent.login cfg.smtpUser cfg.smtpPass] else [])
    ++ [MailEvent.send toAddr withAtt]

/-- A workspace lifecycle event: `tempfile.TemporaryDirectory()` allocating
the directory, and its cleanup removing it recursively. -/
inductive WsEvent where
  | acquire
  | release
deriving DecidableEq

/-- What an endpoint hands back to FastAPI: the 200 `JSONResponse`
`{"ok": true, "sent_to": <sent_to>}`, or a raised `HTTPException`. -/
inductive EndpointResponse where
  | ok (sent_to : String)
  | fail (e : HTTPError)
deriving DecidableEq

/-- Result of the `/convert` handler: a response, or an exception that
escaped the handler (nothing in the handler catches it). -/
inductive ConvertOutcome where
  | resp (r : EndpointResponse)
  | unhandled (msg : String)
deriving DecidableEq

/-- An inbound `POST /convert` request: the `Authorization` header, the
upload's declared `file.content_type`, and the uploaded bytes. -/
structure ConvertRequest where
  authorization : Option String
  contentType : Option String
  raw : List Nat
deriving DecidableEq

/-- Python f-string rendering of `file.content_type` (`None` prints as
"None") in the 400 detail. -/
def showContentType : Option String → String
  | none => "None"
  | some s => s

/-- `file.content_type in ("application/pdf", "application/octet-stream")`. -/
def acceptedContentType (ct : Option String) : Bool :=
  (ct == some "application/pdf") || (ct == some "application/octet-stream")

/-- Oracle for one `/convert` request: whether `pdf_path.write_bytes(raw)`
raises (an environment fault not caught by the handler), the conversion
oracle, and the SMTP oracle. -/
structure ConvertOracle where
  writeInputExc : Option String
  conv : ConvOracle
  smtp : SmtpOracle
deriving DecidableEq

/-- Body of the `with tempfile.TemporaryDirectory() as td:` block in the
`/convert` handler (src/main.py lines 179-203): write the input, convert
(any exception becomes HTTP 500), email (any exception becomes HTTP 502).
The attachment existence checked by `send_email_with_attachment` is the
same filesystem fact as `conv.outputExists` (both are `epub_path`). -/
def convertWorkspaceBody (cfg : Config) (o : ConvertOracle) : ConvertOutcome :=
  match o.writeInputExc with
  | some m => ConvertOutcome.unhandled m
  | none =>
    match pdf_to_epub o.conv with
    | Except.error e => ConvertOutcome.resp (EndpointResponse.fail ⟨500, e⟩)
    | Except.ok _ =>
      match send_email_with_attachment cfg cfg.kindleEmail o.conv.outputExists o.smtp with
      | (Except.error e, _) => ConvertOutcome.resp (EndpointResponse.fail ⟨502, e⟩)
      | (Except.ok _, _) => ConvertOutcome.resp (EndpointResponse.ok cfg.kindleEmail)

/-- The `POST /convert` handler `convert_pdf_to_epub_endpoint` from
src/main.py lines 157-206, returning the outcome together with the workspace
lifecycle trace. `TemporaryDirectory` used as a context manager releases the
directory on every exit from its block, normal or exceptional, so the
release event follows the body outcome unconditionally. -/
def convert_pdf_to_epub_endpoint (cfg : Config) (req : ConvertRequest)
    (o : ConvertOracle) : ConvertOutcome × List WsEvent :=
  match require_bearer cfg.bearerToken req.authorization with
  | Except.error e => (ConvertOutcome.resp (EndpointResponse.fail e), [])
  | Except.ok _ =>
    if acceptedContentType req.contentType = false then
      (ConvertOutcome.resp (EndpointResponse.fail
        ⟨400, "Expected PDF, got " ++ showContentType req.contentType⟩), [])
    else if req.raw.length > cfg.maxPdfBytes then
      (ConvertOutcome.resp (EndpointResponse.fail ⟨413, "PDF too large"⟩), [])
    else
      (convertWorkspaceBody cfg o, [WsEvent.acquire, WsEvent.release])

/-- Oracle for one `/test-email` request: whether `Path("/dev/null")`
exists (it does on the target platform, but it is a filesystem fact), and
the SMTP oracles of the primary and the fallback session. -/
structure TestEmailOracle where
  devNullExists : Bool
  primary : SmtpOracle
  fallback : SmtpOracle
deriving DecidableEq

/-- The `POST /test-email` handler `test_email` from src/main.py lines
208-252. Returns the response and the list of messages actually transmitted,
as (recipient, whether the message carries an attachment part). The primary
attempt goes through `send_email_with_attachment` to `KINDLE_EMAIL` with
`Path("/dev/null")` as attachment; on any exception the fallback re-checks
`SMTP_HOST` and sends a plain message to the literal "ozzy.dave@gmail.com";
a fallback exception becomes HTTP 502. The success body always reports
`KINDLE_EMAIL`. -/
def test_email (cfg : Config) (authorization : Option String)
    (o : TestEmailOracle) : EndpointResponse × List (String × Bool) :=
  match require_bearer cfg.bearerToken authorization with
  | Except.error e => (EndpointResponse.fail e, [])
  | Except.ok _ =>
    match send_email_with_attachment cfg cfg.kindleEmail o.devNullExists o.primary with
    | (Except.ok _, _) => (EndpointResponse.ok cfg.kindleEmail, [(cfg.kindleEmail, true)])
    | (Except.error _, _) =>
      if cfg.smtpHost = "" then
        (EndpointResponse.fail ⟨502, "SMTP_HOST is not set"⟩, [])
      else
        match smtpSession cfg "ozzy.dave@gmail.com" false o.fallback with
        | (Except.ok _, _) =>
          (EndpointResponse.ok cfg.kindleEmail, [("ozzy.dave@gmail.com", false)])
        | (Except.error m, _) => (EndpointResponse.fail ⟨502, m⟩, [])

theorem pyTail_length_le (s : String) (n : Nat) : (pyTail s n).data.length ≤ n := by
  simp only [pyTail]
  simp [List.length_drop]
  omega

theorem pySplitFirstSpaceTail_of_bearer (s : String)
    (h : pyStartswith s "Bearer " = true) :
    pySplitFirstSpaceTail s = strDrop s 7 := by
  have h2 : "Bearer ".data <+: s.data := by
    simpa [pyStartswith, List.isPrefixOf_iff_prefix] using h
  obtain ⟨t, ht⟩ := h2
  have hB : "Bearer ".data = ['B', 'e', 'a', 'r', 'e', 'r', ' '] := rfl
  simp only [pySplitFirstSpaceTail, strDrop, ← ht, hB]
  rfl

theorem require_bearer_some_eq (secret s : String) :
    require_bearer secret (some s) =
      (if pyStartswith s "Bearer " = false then
        Except.error ⟨401, "Missing bearer token"⟩
      else if pyStrip (strDrop s 7) = "" then
        Except.error ⟨401, "Missing bearer token"⟩
      else if pyStrip (strDrop s 7) ≠ secret then
        Except.error ⟨403, "Invalid bearer token"⟩
      else Except.ok ()) := by
  by_cases h0 : s = ""
  · subst h0
    rfl
  · by_cases h1 : pyStartswith s "Bearer " = true
    · simp only [require_bearer, if_neg h0, h1]
      rw [pySplitFirstSpaceTail_of_bearer s h1]
    · have h1f : pyStartswith s "Bearer " = false := by
        cases hx : pyStartswith s "Bearer " <;> simp_all
      simp [require_bearer, if_neg h0, h1f]

theorem require_bearer_error_status (secret : String) (a : Option String)
    (e : HTTPError) (h : require_bearer secret a = Except.error e) :
    e.status = 401 ∨ e.status = 403 := by
  cases a with
  | none =>
    simp only [require_bearer] at h
    cases h
    left
    rfl
  | some s =>
    rw [require_bearer_some_eq] at h
    by_cases h1 : pyStartswith s "Bearer " = false
    · rw [if_pos h1] at h
      cases h
      left
      rfl
    · rw [if_neg h1] at h
      by_cases h2 : pyStrip (strDrop s 7) = ""
      · rw [if_pos h2] at h
        cases h
        left
        rfl
      · rw [if_neg h2] at h
        by_cases h3 : pyStrip (strDrop s 7) ≠ secret
        · rw [if_pos h3] at h
          cases h
          right
          rfl
        · rw [if_neg h3] at h
          cases h

/-- Claim C2: `require_bearer` fails with 401 (Unauthorized) exactly when the
header is absent, does not begin with the prefix "Bearer ", or the token after
the prefix is empty after stripping whitespace; it fails with 403 (Forbidden)
exactly when a well-formed token is present that differs from the configured
secret; and it succeeds exactly when the well-formed token equals the secret.
The embedding is a pure function, so success changes no state. -/
theorem claim_C2_require_bearer_characterization (secret : String)
    (a : Option String) :
    (require_bearer secret a = Except.error ⟨401, "Missing bearer token"⟩ ↔
      (a = none ∨ ∃ s, a = some s ∧
        (pyStartswith s "Bearer " = false ∨ pyStrip (strDrop s 7) = ""))) ∧
    (require_bearer secret a = Except.error ⟨403, "Invalid bearer token"⟩ ↔
      (∃ s, a = some s ∧ pyStartswith s "Bearer " = true ∧
        pyStrip (strDrop s 7) ≠ "" ∧ pyStrip (strDrop s 7) ≠ secret)) ∧
    (require_bearer secret a = Except.ok () ↔
      (∃ s, a = some s ∧ pyStartswith s "Bearer " = true ∧
        pyStrip (strDrop s 7) ≠ "" ∧ pyStrip (strDrop s 7) = secret)) := by
  cases a with
  | none => simp [require_bearer]
  | some s =>
    rw [require_bearer_some_eq]
    by_cases h1 : pyStartswith s "Bearer " = true
    · by_cases h2 : pyStrip (strDrop s 7) = ""
      · simp [h1, h2]
      · by_cases h3 : pyStrip (strDrop s 7) = secret
        · have h2s : ¬ secret = "" := h3 ▸ h2
          simp [h1, h2, h3, h2s]
        · simp [h1, h2, h3]
    · have h1f : pyStartswith s "Bearer " = false := by
        cases hx : pyStartswith s "Bearer " <;> simp_all
      simp [h1f]

theorem convert_endpoint_auth_err (cfg : Config) (req : ConvertRequest)
    (o : ConvertOracle) (e : HTTPError)
    (hA : require_bearer cfg.bearerToken req.authorization = Except.error e) :
    convert_pdf_to_epub_endpoint cfg req o =
      (ConvertOutcome.resp (EndpointResponse.fail e), []) := by
  simp only [convert_pdf_to_epub_endpoint]
  rw [hA]

theorem convert_endpoint_bad_type (cfg : Config) (req : ConvertRequest)
    (o : ConvertOracle)
    (hA : require_bearer cfg.bearerToken req.authorization = Except.ok ())
    (hT : acceptedContentType req.contentType = false) :
    convert_pdf_to_epub_endpoint cfg req o =
      (ConvertOutcome.resp (EndpointResponse.fail
        ⟨400, "Expected PDF, got " ++ showContentType req.contentType⟩), []) := by
  simp only [convert_pdf_to_epub_endpoint]
  rw [hA]
  simp [hT]

theorem convert_endpoint_too_large (cfg : Config) (req : ConvertRequest)
    (o : ConvertOracle)
    (hA : require_bearer cfg.bearerToken req.authorization = Except.ok ())
    (hT : acceptedContentType req.contentType = true)
    (hS : req.raw.length > cfg.maxPdfBytes) :
    convert_pdf_to_epub_endpoint cfg req o =
      (ConvertOutcome.resp (EndpointResponse.fail ⟨413, "PDF too large"⟩), []) := by
  simp only [convert_pdf_to_epub_endpoint]
  rw [hA]
  simp [hT, hS]

theorem convert_endpoint_validated (cfg : Config) (req : ConvertRequest)
    (o : ConvertOracle)
    (hA : require_bearer cfg.bearerToken req.authorization = Except.ok ())
    (hT : acceptedContentType req.contentType = true)
    (hS : ¬ req.raw.length > cfg.maxPdfBytes) :
    convert_pdf_to_epub_endpoint cfg req o =
      (convertWorkspaceBody cfg o, [WsEvent.acquire, WsEvent.release]) := by
  simp only [convert_pdf_to_epub_endpoint]
  rw [hA]
  simp [hT, hS]

theorem workspaceBody_conv_err (cfg : Config) (o : ConvertOracle) (m : String)
    (hW : o.writeInputExc = none) (hc : pdf_to_epub o.conv = Except.error m) :
    convertWorkspaceBody cfg o =
      ConvertOutcome.resp (EndpointResponse.fail ⟨500, m⟩) := by
  simp only [convertWorkspaceBody]
  rw [hW, hc]

theorem workspaceBody_mail_err (cfg : Config) (o : ConvertOracle) (m : String)
    (hW : o.writeInputExc = none) (hc : pdf_to_epub o.conv = Except.ok ())
    (hm : (send_email_with_attachment cfg cfg.kindleEmail o.conv.outputExists o.smtp).1 =
      Except.error m) :
    convertWorkspaceBody cfg o =
      ConvertOutcome.resp (EndpointResponse.fail ⟨502, m⟩) := by
  simp only [convertWorkspaceBody]
  rw [hW, hc]
  cases hp : send_email_with_attachment cfg cfg.kindleEmail o.conv.outputExists o.smtp with
  | mk r evs =>
    rw [hp] at hm
    simp at hm
    rw [hm]

theorem workspaceBody_all_ok (cfg : Config) (o : ConvertOracle)
    (hW : o.writeInputExc = none) (hc : pdf_to_epub o.conv = Except.ok ())
    (hm : (send_email_with_attachment cfg cfg.kindleEmail o.conv.outputExists o.smtp).1 =
      Except.ok ()) :
    convertWorkspaceBody cfg o =
      ConvertOutcome.resp (EndpointResponse.ok cfg.kindleEmail) := by
  simp only [convertWorkspaceBody]
  rw [hW, hc]
  cases hp : send_email_with_attachment cfg cfg.kindleEmail o.conv.outputExists o.smtp with
  | mk r evs =>
    rw [hp] at hm
    simp at hm
    rw [hm]

theorem pdf_to_epub_eq_notFound (oe : Bool) (osz : Nat) :
    pdf_to_epub ⟨ProcResult.notFound, oe, osz⟩ =
      Except.error "Conversion failed: ebook-convert not found (install calibre)" := rfl

theorem pdf_to_epub_eq_completed (rc : Int) (out err : String) (oe : Bool) (osz : Nat) :
    pdf_to_epub ⟨ProcResult.completed rc out err, oe, osz⟩ =
      (if rc ≠ 0 then Except.error ("Conversion failed: " ++ pyTail err 2000)
       else if oe = false ∨ osz = 0 then
         Except.error "Conversion failed: output EPUB was not created"
       else Except.ok ()) := rfl

/-- Claim C4: a conversion run succeeds only if the output file exists with
non-zero length, and an exit status of 0 with a missing or zero-length output
path fails with the EmptyOutput error ("output EPUB was not created"). -/
theorem claim_C4_success_implies_nonempty_output (o : ConvOracle) :
    (pdf_to_epub o = Except.ok () → o.outputExists = true ∧ 0 < o.outputSize) ∧
    (∀ rc out err, o.proc = ProcResult.completed rc out err → rc = 0 →
      (o.outputExists = false ∨ o.outputSize = 0) →
      pdf_to_epub o = Except.error "Conversion failed: output EPUB was not created") := by
  obtain ⟨p, oe, osz⟩ := o
  constructor
  · intro h
    cases p with
    | notFound =>
      rw [pdf_to_epub_eq_notFound] at h
      simp at h
    | completed rc out err =>
      rw [pdf_to_epub_eq_completed] at h
      by_cases hrc : rc = 0
      · by_cases hout : oe = false ∨ osz = 0
        · rw [if_neg (by simp [hrc]), if_pos hout] at h
          simp at h
        · rw [if_neg (by simp [hrc]), if_neg hout] at h
          push_neg at hout
          refine ⟨?_, Nat.pos_of_ne_zero hout.2⟩
          cases oe with
          | false => exact absurd rfl hout.1
          | true => rfl
      · rw [if_pos hrc] at h
        simp at h
  · intro rc out err hp hrc hout
    cases hp
    rw [pdf_to_epub_eq_completed, if_neg (by simp [hrc]), if_pos hout]

theorem claim_C4_witness :
    pdf_to_epub ⟨ProcResult.completed 0 "" "", false, 0⟩ =
      Except.error "Conversion failed: output EPUB was not created" :=
  (claim_C4_success_implies_nonempty_output
    ⟨ProcResult.completed 0 "" "", false, 0⟩).2 0 "" "" rfl rfl (Or.inl rfl)

theorem pdf_to_epub_toolFailed (o : ConvOracle) (rc : Int) (out err : String)
    (hp : o.proc = ProcResult.completed rc out err) (hrc : rc ≠ 0) :
    pdf_to_epub o = Except.error ("Conversion failed: " ++ pyTail err 2000) := by
  obtain ⟨p, oe, osz⟩ := o
  cases hp
  rw [pdf_to_epub_eq_completed, if_pos hrc]

/-- Claim C7: when the converter process starts but exits with a non-zero
status, `pdf_to_epub` fails carrying the last at-most-2000 characters of the
captured standard-error stream, and the /convert response is a 500 whose
detail contains exactly that truncated excerpt. -/
theorem claim_C7_tool_failed_truncates_stderr (cfg : Config)
    (req : ConvertRequest) (o : ConvertOracle) (rc : Int) (out err : String)
    (hA : require_bearer cfg.bearerToken req.authorization = Except.ok ())
    (hT : acceptedContentType req.contentType = true)
    (hS : ¬ req.raw.length > cfg.maxPdfBytes)
    (hW : o.writeInputExc = none)
    (hP : o.conv.proc = ProcResult.completed rc out err)
    (hrc : rc ≠ 0) :
    pdf_to_epub o.conv = Except.error ("Conversion failed: " ++ pyTail err 2000) ∧
    (pyTail err 2000).data.length ≤ 2000 ∧
    (convert_pdf_to_epub_endpoint cfg req o).1 =
      ConvertOutcome.resp (EndpointResponse.fail
        ⟨500, "Conversion failed: " ++ pyTail err 2000⟩) := by
  have hconv := pdf_to_epub_toolFailed o.conv rc out err hP hrc
  refine ⟨hconv, pyTail_length_le err 2000, ?_⟩
  rw [convert_endpoint_validated cfg req o hA hT hS]
  exact workspaceBody_conv_err cfg o _ hW hconv

theorem claim_C7_witness :
    pdf_to_epub ⟨ProcResult.completed 1 "" "boom", false, 0⟩ =
      Except.error ("Conversion failed: " ++ pyTail "boom" 2000) ∧
    (pyTail "boom" 2000).data.length ≤ 2000 ∧
    (convert_pdf_to_epub_endpoint
      ⟨"tok", "kindle@example.com", "smtp.example.com", 587, "", "", "noreply@example.com", false, 10⟩
      ⟨some "Bearer tok", some "application/pdf", []⟩
      ⟨none, ⟨ProcResult.completed 1 "" "boom", false, 0⟩,
        ⟨StepOutcome.ok, StepOutcome.ok, LoginOutcome.ok, StepOutcome.ok⟩⟩).1 =
      ConvertOutcome.resp (EndpointResponse.fail
        ⟨500, "Conversion failed: " ++ pyTail "boom" 2000⟩) :=
  claim_C7_tool_failed_truncates_stderr
    ⟨"tok", "kindle@example.com", "smtp.example.com", 587, "", "", "noreply@example.com", false, 10⟩
    ⟨some "Bearer tok", some "application/pdf", []⟩
    ⟨none, ⟨ProcResult.completed 1 "" "boom", false, 0⟩,
      ⟨StepOutcome.ok, StepOutcome.ok, LoginOutcome.ok, StepOutcome.ok⟩⟩
    1 "" "boom" rfl rfl (by decide) rfl rfl (by decide)

theorem smtpAuthAndSend_trace (cfg : Config) (toAddr : String) (watt : Bool)
    (o : SmtpOracle) (evs : List MailEvent) :
    (∃ rest, (smtpAuthAndSend cfg toAddr watt o evs).2 ++ rest =
      evs ++ (if cfg.smtpUser ≠ "" then [MailEvent.login cfg.smtpUser cfg.smtpPass] else [])
          ++ [MailEvent.send toAddr watt]) ∧
    ((smtpAuthAndSend cfg toAddr watt o evs).1 = Except.ok () →
      (smtpAuthAndSend cfg toAddr watt o evs).2 =
        evs ++ (if cfg.smtpUser ≠ "" then [MailEvent.login cfg.smtpUser cfg.smtpPass] else [])
            ++ [MailEvent.send toAddr watt]) := by
  obtain ⟨oc, ot, ol, os⟩ := o
  by_cases hU : cfg.smtpUser ≠ ""
  · cases ol with
    | authError =>
      refine ⟨⟨[MailEvent.send toAddr watt], by simp [smtpAuthAndSend, hU]⟩, ?_⟩
      intro h
      exact absurd h (by simp [smtpAuthAndSend, hU])
    | exc m =>
      refine ⟨⟨[MailEvent.send toAddr watt], by simp [smtpAuthAndSend, hU]⟩, ?_⟩
      intro h
      exact absurd h (by simp [smtpAuthAndSend, hU])
    | ok =>
      cases os with
      | ok => exact ⟨⟨[], by simp [smtpAuthAndSend, hU]⟩, fun _ => by simp [smtpAuthAndSend, hU]⟩
      | exc m =>
        refine ⟨⟨[], by simp [smtpAuthAndSend, hU]⟩, ?_⟩
        intro h
        exact absurd h (by simp [smtpAuthAndSend, hU])
  · cases os with
    | ok => exact ⟨⟨[], by simp [smtpAuthAndSend, hU]⟩, fun _ => by simp [smtpAuthAndSend, hU]⟩
    | exc m =>
      refine ⟨⟨[], by simp [smtpAuthAndSend, hU]⟩, ?_⟩
      intro h
      exact absurd h (by simp [smtpAuthAndSend, hU])

theorem smtpSession_trace (cfg : Config) (toAddr : String) (watt : Bool)
    (o : SmtpOracle) :
    (∃ rest, (smtpSession cfg toAddr watt o).2 ++ rest =
      canonicalSessionTrace cfg toAddr watt) ∧
    ((smtpSession cfg toAddr watt o).1 = Except.ok () →
      (smtpSession cfg toAddr watt o).2 = canonicalSessionTrace cfg toAddr watt) := by
  have hoc : o.connect = o.connect := rfl
  cases hc : o.connect with
  | exc m =>
    have h1 : smtpSession cfg toAddr watt o =
        (Except.error ("Email failed: " ++ m),
          [MailEvent.connect cfg.smtpHost cfg.smtpPort 30]) := by
      obtain ⟨oc, ot, ol, os⟩ := o
      cases hc
      rfl
    rw [h1]
    refine ⟨⟨(if cfg.smtpTLS then [MailEvent.starttls] else []) ++
      (if cfg.smtpUser ≠ "" then [MailEvent.login cfg.smtpUser cfg.smtpPass] else []) ++
      [MailEvent.send toAddr watt], by simp [canonicalSessionTrace]⟩, ?_⟩
    intro h
    exact absurd h (by simp)
  | ok =>
    by_cases hT : cfg.smtpTLS
    · cases hs : o.starttls with
      | exc m =>
        have h1 : smtpSession cfg toAddr watt o =
            (Except.error ("Email failed: " ++ m),
              [MailEvent.connect cfg.smtpHost cfg.smtpPort 30] ++ [MailEvent.starttls]) := by
          obtain ⟨oc, ot, ol, os⟩ := o
          cases hc
          cases hs
          simp [smtpSession, hT]
        rw [h1]
        refine ⟨⟨(if cfg.smtpUser ≠ "" then [MailEvent.login cfg.smtpUser cfg.smtpPass] else []) ++
          [MailEvent.send toAddr watt], by simp [canonicalSessionTrace, hT]⟩, ?_⟩
        intro h
        exact absurd h (by simp)
      | ok =>
        have h1 : smtpSession cfg toAddr watt o =
            smtpAuthAndSend cfg toAddr watt o
              ([MailEvent.connect cfg.smtpHost cfg.smtpPort 30] ++ [MailEvent.starttls]) := by
          obtain ⟨oc, ot, ol, os⟩ := o
          cases hc
          cases hs
          simp [smtpSession, hT]
        rw [h1]
        obtain ⟨⟨rest, hrest⟩, hok⟩ := smtpAuthAndSend_trace cfg toAddr watt o
          ([MailEvent.connect cfg.smtpHost cfg.smtpPort 30] ++ [MailEvent.starttls])
        constructor
        · exact ⟨rest, by rw [hrest]; simp [canonicalSessionTrace, hT]⟩
        · intro h
          rw [hok h]
          simp [canonicalSessionTrace, hT]
    · have h1 : smtpSession cfg toAddr watt o =
          smtpAuthAndSend cfg toAddr watt o
            [MailEvent.connect cfg.smtpHost cfg.smtpPort 30] := by
        obtain ⟨oc, ot, ol, os⟩ := o
        cases hc
        simp [smtpSession, hT]
      rw [h1]
      obtain ⟨⟨rest, hrest⟩, hok⟩ := smtpAuthAndSend_trace cfg toAddr watt o
        [MailEvent.connect cfg.smtpHost cfg.smtpPort 30]
      constructor
      · exact ⟨rest, by rw [hrest]; simp [canonicalSessionTrace, hT]⟩
      · intro h
        rw [hok h]
        simp [canonicalSessionTrace, hT]

/-- Claim C8: in every call to the mail dispatcher, the mail-host check fails
first with no network activity; then the attachment-existence check fails with
no network session opened; otherwise the session events are always an initial
segment of: connect (30-second timeout), then `starttls` when TLS is
configured (before any authentication), then `login` only when a username is
configured, then message transmission; and a successful delivery performs
exactly that full sequence. -/
theorem claim_C8_deliver_step_order (cfg : Config) (toAddr : String)
    (attEx : Bool) (o : SmtpOracle) :
    (cfg.smtpHost = "" →
      send_email_with_attachment cfg toAddr attEx o =
        (Except.error "SMTP_HOST is not set", [])) ∧
    (cfg.smtpHost ≠ "" → attEx = false →
      send_email_with_attachment cfg toAddr attEx o =
        (Except.error "Attachment not found", [])) ∧
    (∃ rest, (send_email_with_attachment cfg toAddr attEx o).2 ++ rest =
      canonicalSessionTrace cfg toAddr true) ∧
    ((send_email_with_attachment cfg toAddr attEx o).1 = Except.ok () →
      (send_email_with_attachment cfg toAddr attEx o).2 =
        canonicalSessionTrace cfg toAddr true) := by
  by_cases hH : cfg.smtpHost = ""
  · refine ⟨fun _ => by simp [send_email_with_attachment, hH], fun hne => absurd hH hne, ?_, ?_⟩
    · refine ⟨canonicalSessionTrace cfg toAddr true, ?_⟩
      simp [send_email_with_attachment, hH]
    · intro h
      exact absurd h (by simp [send_email_with_attachment, hH])
  · by_cases hAt : attEx = false
    · refine ⟨fun he => absurd he hH, fun _ _ => by simp [send_email_with_attachment, hH, hAt], ?_, ?_⟩
      · refine ⟨canonicalSessionTrace cfg toAddr true, ?_⟩
        simp [send_email_with_attachment, hH, hAt]
      · intro h
        exact absurd h (by simp [send_email_with_attachment, hH, hAt])
    · have hsame : send_email_with_attachment cfg toAddr attEx o =
          smtpSession cfg toAddr true o := by
        simp [send_email_with_attachment, hH, hAt]
      obtain ⟨hpre, hok⟩ := smtpSession_trace cfg toAddr true o
      refine ⟨fun he => absurd he hH, fun _ he => absurd he hAt, ?_, ?_⟩
      · rw [hsame]
        exact hpre
      · rw [hsame]
        exact hok

theorem claim_C8_witness :
    (send_email_with_attachment
      ⟨"tok", "kindle@example.com", "", 587, "u", "p", "f", true, 10⟩
      "kindle@example.com" true ⟨StepOutcome.ok, StepOutcome.ok, LoginOutcome.ok, StepOutcome.ok⟩ =
      (Except.error "SMTP_HOST is not set", [])) ∧
    (send_email_with_attachment
      ⟨"tok", "kindle@example.com", "smtp.example.com", 587, "u", "p", "f", true, 10⟩
      "kindle@example.com" true
      ⟨StepOutcome.ok, StepOutcome.ok, LoginOutcome.ok, StepOutcome.ok⟩).2 =
      canonicalSessionTrace
        ⟨"tok", "kindle@example.com", "smtp.example.com", 587, "u", "p", "f", true, 10⟩
        "kindle@example.com" true :=
  ⟨(claim_C8_deliver_step_order
      ⟨"tok", "kindle@example.com", "", 587, "u", "p", "f", true, 10⟩
      "kindle@example.com" true
      ⟨StepOutcome.ok, StepOutcome.ok, LoginOutcome.ok, StepOutcome.ok⟩).1 rfl,
   (claim_C8_deliver_step_order
      ⟨"tok", "kindle@example.com", "smtp.example.com", 587, "u", "p", "f", true, 10⟩
      "kindle@example.com" true
      ⟨StepOutcome.ok, StepOutcome.ok, LoginOutcome.ok, StepOutcome.ok⟩).2.2.2 rfl⟩

/-- Claim C1: the /convert orchestrator maps outcomes to HTTP responses
exactly as specified: missing or malformed credential gives 401, a wrong
credential gives 403, an unsupported content type gives 400, an oversized
payload gives 413, a conversion failure gives 500 carrying the error detail,
a delivery failure gives 502 carrying the error detail, and success gives the
200 body reporting the configured recipient. -/
theorem claim_C1_convert_status_mapping (cfg : Config) (req : ConvertRequest)
    (o : ConvertOracle) :
    (req.authorization = none →
      (convert_pdf_to_epub_endpoint cfg req o).1 =
        ConvertOutcome.resp (EndpointResponse.fail ⟨401, "Missing bearer token"⟩)) ∧
    (∀ s, req.authorization = some s → pyStartswith s "Bearer " = false →
      (convert_pdf_to_epub_endpoint cfg req o).1 =
        ConvertOutcome.resp (EndpointResponse.fail ⟨401, "Missing bearer token"⟩)) ∧
    (∀ s, req.authorization = some s → pyStartswith s "Bearer " = true →
      pyStrip (strDrop s 7) = "" →
      (convert_pdf_to_epub_endpoint cfg req o).1 =
        ConvertOutcome.resp (EndpointResponse.fail ⟨401, "Missing bearer token"⟩)) ∧
    (∀ s, req.authorization = some s → pyStartswith s "Bearer " = true →
      pyStrip (strDrop s 7) ≠ "" → pyStrip (strDrop s 7) ≠ cfg.bearerToken →
      (convert_pdf_to_epub_endpoint cfg req o).1 =
        ConvertOutcome.resp (EndpointResponse.fail ⟨403, "Invalid bearer token"⟩)) ∧
    (require_bearer cfg.bearerToken req.authorization = Except.ok () →
      acceptedContentType req.contentType = false →
      (convert_pdf_to_epub_endpoint cfg req o).1 =
        ConvertOutcome.resp (EndpointResponse.fail
          ⟨400, "Expected PDF, got " ++ showContentType req.contentType⟩)) ∧
    (require_bearer cfg.bearerToken req.authorization = Except.ok () →
      acceptedContentType req.contentType = true →
      req.raw.length > cfg.maxPdfBytes →
      (convert_pdf_to_epub_endpoint cfg req o).1 =
        ConvertOutcome.resp (EndpointResponse.fail ⟨413, "PDF too large"⟩)) ∧
    (∀ m, require_bearer cfg.bearerToken req.authorization = Except.ok () →
      acceptedContentType req.contentType = true →
      ¬ req.raw.length > cfg.maxPdfBytes → o.writeInputExc = none →
      pdf_to_epub o.conv = Except.error m →
      (convert_pdf_to_epub_endpoint cfg req o).1 =
        ConvertOutcome.resp (EndpointResponse.fail ⟨500, m⟩)) ∧
    (∀ m, require_bearer cfg.bearerToken req.authorization = Except.ok () →
      acceptedContentType req.contentType = true →
      ¬ req.raw.length > cfg.maxPdfBytes → o.writeInputExc = none →
      pdf_to_epub o.conv = Except.ok () →
      (send_email_with_attachment cfg cfg.kindleEmail o.conv.outputExists o.smtp).1 =
        Except.error m →
      (convert_pdf_to_epub_endpoint cfg req o).1 =
        ConvertOutcome.resp (EndpointResponse.fail ⟨502, m⟩)) ∧
    (require_bearer cfg.bearerToken req.authorization = Except.ok () →
      acceptedContentType req.contentType = true →
      ¬ req.raw.length > cfg.maxPdfBytes → o.writeInputExc = none →
      pdf_to_epub o.conv = Except.ok () →
      (send_email_with_attachment cfg cfg.kindleEmail o.conv.outputExists o.smtp).1 =
        Except.ok () →
      (convert_pdf_to_epub_endpoint cfg req o).1 =
        ConvertOutcome.resp (EndpointResponse.ok cfg.kindleEmail)) := by
  refine ⟨?_, ?_, ?_, ?_, ?_, ?_, ?_, ?_, ?_⟩
  · intro hnone
    rw [convert_endpoint_auth_err cfg req o ⟨401, "Missing bearer token"⟩ (by rw [hnone]; rfl)]
  · intro s hs h1
    have hrb : require_bearer cfg.bearerToken req.authorization =
        Except.error ⟨401, "Missing bearer token"⟩ := by
      rw [hs, require_bearer_some_eq]
      simp [h1]
    rw [convert_endpoint_auth_err cfg req o _ hrb]
  · intro s hs h1 h2
    have hrb : require_bearer cfg.bearerToken req.authorization =
        Except.error ⟨401, "Missing bearer token"⟩ := by
      rw [hs, require_bearer_some_eq]
      simp [h1, h2]
    rw [convert_endpoint_auth_err cfg req o _ hrb]
  · intro s hs h1 h2 h3
    have hrb : require_bearer cfg.bearerToken req.authorization =
        Except.error ⟨403, "Invalid bearer token"⟩ := by
      rw [hs, require_bearer_some_eq]
      simp [h1, h2, h3]
    rw [convert_endpoint_auth_err cfg req o _ hrb]
  · intro hA hT
    rw [convert_endpoint_bad_type cfg req o hA hT]
  · intro hA hT hS
    rw [convert_endpoint_too_large cfg req o hA hT hS]
  · intro m hA hT hS hW hc
    rw [convert_endpoint_validated cfg req o hA hT hS]
    exact workspaceBody_conv_err cfg o m hW hc
  · intro m hA hT hS hW hc hm
    rw [convert_endpoint_validated cfg req o hA hT hS]
    exact workspaceBody_mail_err cfg o m hW hc hm
  · intro hA hT hS hW hc hm
    rw [convert_endpoint_validated cfg req o hA hT hS]
    exact workspaceBody_all_ok cfg o hW hc hm

theorem claim_C1_witness :
    ((convert_pdf_to_epub_endpoint
      ⟨"tok", "kindle@example.com", "smtp.example.com", 587, "", "", "f", false, 10⟩
      ⟨some "Bearer tok", some "application/pdf", [37]⟩
      ⟨none, ⟨ProcResult.completed 0 "" "", true, 5⟩,
        ⟨StepOutcome.ok, StepOutcome.ok, LoginOutcome.ok, StepOutcome.ok⟩⟩).1 =
      ConvertOutcome.resp (EndpointResponse.ok "kindle@example.com")) ∧
    ((convert_pdf_to_epub_endpoint
      ⟨"tok", "kindle@example.com", "smtp.example.com", 587, "", "", "f", false, 10⟩
      ⟨none, some "application/pdf", [37]⟩
      ⟨none, ⟨ProcResult.completed 0 "" "", true, 5⟩,
        ⟨StepOutcome.ok, StepOutcome.ok, LoginOutcome.ok, StepOutcome.ok⟩⟩).1 =
      ConvertOutcome.resp (EndpointResponse.fail ⟨401, "Missing bearer token"⟩)) :=
  ⟨(claim_C1_convert_status_mapping
      ⟨"tok", "kindle@example.com", "smtp.example.com", 587, "", "", "f", false, 10⟩
      ⟨some "Bearer tok", some "application/pdf", [37]⟩
      ⟨none, ⟨ProcResult.completed 0 "" "", true, 5⟩,
        ⟨StepOutcome.ok, StepOutcome.ok, LoginOutcome.ok, StepOutcome.ok⟩⟩).2.2.2.2.2.2.2.2
    rfl rfl (by decide) rfl rfl rfl,
   (claim_C1_convert_status_mapping
      ⟨"tok", "kindle@example.com", "smtp.example.com", 587, "", "", "f", false, 10⟩
      ⟨none, some "application/pdf", [37]⟩
      ⟨none, ⟨ProcResult.completed 0 "" "", true, 5⟩,
        ⟨StepOutcome.ok, StepOutcome.ok, LoginOutcome.ok, StepOutcome.ok⟩⟩).1 rfl⟩

/-- Claim C3: for every /convert request, the workspace event trace is either
empty (the request failed before workspace creation) or exactly one
acquisition followed by exactly one release; in particular every acquired
workspace is released exactly once on every path out of the workspace block,
including the unexpected-exception path. -/
theorem claim_C3_workspace_released_exactly_once (cfg : Config)
    (req : ConvertRequest) (o : ConvertOracle) :
    ((convert_pdf_to_epub_endpoint cfg req o).2 = [] ∨
     (convert_pdf_to_epub_endpoint cfg req o).2 = [WsEvent.acquire, WsEvent.release]) ∧
    List.count WsEvent.acquire (convert_pdf_to_epub_endpoint cfg req o).2 =
      List.count WsEvent.release (convert_pdf_to_epub_endpoint cfg req o).2 := by
  cases hA : require_bearer cfg.bearerToken req.authorization with
  | error e =>
    rw [convert_endpoint_auth_err cfg req o e hA]
    exact ⟨Or.inl rfl, rfl⟩
  | ok u =>
    cases u
    by_cases hT : acceptedContentType req.contentType = false
    · rw [convert_endpoint_bad_type cfg req o hA hT]
      exact ⟨Or.inl rfl, rfl⟩
    · have hT2 : acceptedContentType req.contentType = true := by
        cases hx : acceptedContentType req.contentType <;> simp_all
      by_cases hS : req.raw.length > cfg.maxPdfBytes
      · rw [convert_endpoint_too_large cfg req o hA hT2 hS]
        exact ⟨Or.inl rfl, rfl⟩
      · rw [convert_endpoint_validated cfg req o hA hT2 hS]
        exact ⟨Or.inr rfl, rfl⟩

/-- Claim C5 counterexample: a request whose payload exceeds the configured
maximum (3 bytes against a 2-byte limit) but whose declared content type is
"text/plain" is answered 400 (UnsupportedType), not 413 (PayloadTooLarge):
oversize does not yield PayloadTooLarge regardless of the content type. -/
theorem claim_C5_counterexample :
    ([0, 0, 0].length > (2 : Nat)) ∧
    (convert_pdf_to_epub_endpoint
      ⟨"tok", "kindle@example.com", "smtp.example.com", 587, "", "", "f", false, 2⟩
      ⟨some "Bearer tok", some "text/plain", [0, 0, 0]⟩
      ⟨none, ⟨ProcResult.completed 0 "" "", true, 5⟩,
        ⟨StepOutcome.ok, StepOutcome.ok, LoginOutcome.ok, StepOutcome.ok⟩⟩).1 =
      ConvertOutcome.resp (EndpointResponse.fail ⟨400, "Expected PDF, got text/plain"⟩) ∧
    (convert_pdf_to_epub_endpoint
      ⟨"tok", "kindle@example.com", "smtp.example.com", 587, "", "", "f", false, 2⟩
      ⟨some "Bearer tok", some "text/plain", [0, 0, 0]⟩
      ⟨none, ⟨ProcResult.completed 0 "" "", true, 5⟩,
        ⟨StepOutcome.ok, StepOutcome.ok, LoginOutcome.ok, StepOutcome.ok⟩⟩).1 ≠
      ConvertOutcome.resp (EndpointResponse.fail ⟨413, "PDF too large"⟩) := by
  refine ⟨by decide, rfl, ?_⟩
  intro h
  rw [show (convert_pdf_to_epub_endpoint
      ⟨"tok", "kindle@example.com", "smtp.example.com", 587, "", "", "f", false, 2⟩
      ⟨some "Bearer tok", some "text/plain", [0, 0, 0]⟩
      ⟨none, ⟨ProcResult.completed 0 "" "", true, 5⟩,
        ⟨StepOutcome.ok, StepOutcome.ok, LoginOutcome.ok, StepOutcome.ok⟩⟩).1 =
      ConvertOutcome.resp (EndpointResponse.fail ⟨400, "Expected PDF, got text/plain"⟩)
    from rfl] at h
  simp at h

/-- Claim C5 (amended): for every payload whose length exceeds the configured
maximum and whose declared content type is in the accepted set, validation
fails with PayloadTooLarge (HTTP 413). -/
theorem claim_C5_amended_oversize_accepted_type_413 (cfg : Config)
    (req : ConvertRequest) (o : ConvertOracle)
    (hA : require_bearer cfg.bearerToken req.authorization = Except.ok ())
    (hT : acceptedContentType req.contentType = true)
    (hS : req.raw.length > cfg.maxPdfBytes) :
    (convert_pdf_to_epub_endpoint cfg req o).1 =
      ConvertOutcome.resp (EndpointResponse.fail ⟨413, "PDF too large"⟩) := by
  rw [convert_endpoint_too_large cfg req o hA hT hS]

theorem claim_C5_amended_witness :
    (convert_pdf_to_epub_endpoint
      ⟨"tok", "kindle@example.com", "smtp.example.com", 587, "", "", "f", false, 2⟩
      ⟨some "Bearer tok", some "application/pdf", [0, 0, 0]⟩
      ⟨none, ⟨ProcResult.completed 0 "" "", true, 5⟩,
        ⟨StepOutcome.ok, StepOutcome.ok, LoginOutcome.ok, StepOutcome.ok⟩⟩).1 =
      ConvertOutcome.resp (EndpointResponse.fail ⟨413, "PDF too large"⟩) :=
  claim_C5_amended_oversize_accepted_type_413
    ⟨"tok", "kindle@example.com", "smtp.example.com", 587, "", "", "f", false, 2⟩
    ⟨some "Bearer tok", some "application/pdf", [0, 0, 0]⟩
    ⟨none, ⟨ProcResult.completed 0 "" "", true, 5⟩,
      ⟨StepOutcome.ok, StepOutcome.ok, LoginOutcome.ok, StepOutcome.ok⟩⟩
    rfl rfl (by decide)

/-- Claim C6: upload validation checks the declared content type before the
payload size: an unaccepted content type is answered 400 whatever the payload
length, and a 413 (PayloadTooLarge) answer is only reachable when the content
type check passed. -/
theorem claim_C6_type_checked_before_size (cfg : Config) (req : ConvertRequest)
    (o : ConvertOracle) :
    (require_bearer cfg.bearerToken req.authorization = Except.ok () →
      acceptedContentType req.contentType = false →
      (convert_pdf_to_epub_endpoint cfg req o).1 =
        ConvertOutcome.resp (EndpointResponse.fail
          ⟨400, "Expected PDF, got " ++ showContentType req.contentType⟩)) ∧
    ((convert_pdf_to_epub_endpoint cfg req o).1 =
        ConvertOutcome.resp (EndpointResponse.fail ⟨413, "PDF too large"⟩) →
      acceptedContentType req.contentType = true) := by
  constructor
  · intro hA hT
    rw [convert_endpoint_bad_type cfg req o hA hT]
  · intro h413
    cases hA : require_bearer cfg.bearerToken req.authorization with
    | error e =>
      rw [convert_endpoint_auth_err cfg req o e hA] at h413
      simp at h413
      have := require_bearer_error_status cfg.bearerToken req.authorization e hA
      rw [h413] at this
      simp at this
    | ok u =>
      cases u
      by_cases hT : acceptedContentType req.contentType = false
      · rw [convert_endpoint_bad_type cfg req o hA hT] at h413
        simp at h413
      · cases hx : acceptedContentType req.contentType with
        | false => exact absurd hx hT
        | true => rfl

theorem claim_C6_witness :
    (convert_pdf_to_epub_endpoint
      ⟨"tok", "kindle@example.com", "smtp.example.com", 587, "", "", "f", false, 2⟩
      ⟨some "Bearer tok", some "image/png", [0, 0, 0]⟩
      ⟨none, ⟨ProcResult.completed 0 "" "", true, 5⟩,
        ⟨StepOutcome.ok, StepOutcome.ok, LoginOutcome.ok, StepOutcome.ok⟩⟩).1 =
      ConvertOutcome.resp (EndpointResponse.fail ⟨400, "Expected PDF, got image/png"⟩) :=
  (claim_C6_type_checked_before_size
    ⟨"tok", "kindle@example.com", "smtp.example.com", 587, "", "", "f", false, 2⟩
    ⟨some "Bearer tok", some "image/png", [0, 0, 0]⟩
    ⟨none, ⟨ProcResult.completed 0 "" "", true, 5⟩,
      ⟨StepOutcome.ok, StepOutcome.ok, LoginOutcome.ok, StepOutcome.ok⟩⟩).1 rfl rfl

theorem test_email_primary_ok (cfg : Config) (a : Option String)
    (o : TestEmailOracle)
    (hA : require_bearer cfg.bearerToken a = Except.ok ())
    (hp : (send_email_with_attachment cfg cfg.kindleEmail o.devNullExists o.primary).1 =
      Except.ok ()) :
    test_email cfg a o =
      (EndpointResponse.ok cfg.kindleEmail, [(cfg.kindleEmail, true)]) := by
  simp only [test_email]
  rw [hA]
  cases hq : send_email_with_attachment cfg cfg.kindleEmail o.devNullExists o.primary with
  | mk r evs =>
    rw [hq] at hp
    simp at hp
    rw [hp]

theorem test_email_host_unset (cfg : Config) (a : Option String)
    (o : TestEmailOracle) (m : String)
    (hA : require_bearer cfg.bearerToken a = Except.ok ())
    (hp : (send_email_with_attachment cfg cfg.kindleEmail o.devNullExists o.primary).1 =
      Except.error m)
    (hH : cfg.smtpHost = "") :
    test_email cfg a o =
      (EndpointResponse.fail ⟨502, "SMTP_HOST is not set"⟩, []) := by
  simp only [test_email]
  rw [hA]
  cases hq : send_email_with_attachment cfg cfg.kindleEmail o.devNullExists o.primary with
  | mk r evs =>
    rw [hq] at hp
    simp at hp
    rw [hp]
    rw [if_pos hH]

theorem test_email_fallback_ok (cfg : Config) (a : Option String)
    (o : TestEmailOracle) (m : String)
    (hA : require_bearer cfg.bearerToken a = Except.ok ())
    (hp : (send_email_with_attachment cfg cfg.kindleEmail o.devNullExists o.primary).1 =
      Except.error m)
    (hH : ¬ cfg.smtpHost = "")
    (hf : (smtpSession cfg "ozzy.dave@gmail.com" false o.fallback).1 = Except.ok ()) :
    test_email cfg a o =
      (EndpointResponse.ok cfg.kindleEmail, [("ozzy.dave@gmail.com", false)]) := by
  simp only [test_email]
  rw [hA]
  cases hq : send_email_with_attachment cfg cfg.kindleEmail o.devNullExists o.primary with
  | mk r evs =>
    rw [hq] at hp
    simp at hp
    rw [hp]
    rw [if_neg hH]
    cases hq2 : smtpSession cfg "ozzy.dave@gmail.com" false o.fallback with
    | mk r2 evs2 =>
      rw [hq2] at hf
      simp at hf
      rw [hf]

theorem test_email_both_fail (cfg : Config) (a : Option String)
    (o : TestEmailOracle) (m m2 : String)
    (hA : require_bearer cfg.bearerToken a = Except.ok ())
    (hp : (send_email_with_attachment cfg cfg.kindleEmail o.devNullExists o.primary).1 =
      Except.error m)
    (hH : ¬ cfg.smtpHost = "")
    (hf : (smtpSession cfg "ozzy.dave@gmail.com" false o.fallback).1 = Except.error m2) :
    test_email cfg a o = (EndpointResponse.fail ⟨502, m2⟩, []) := by
  simp only [test_email]
  rw [hA]
  cases hq : send_email_with_attachment cfg cfg.kindleEmail o.devNullExists o.primary with
  | mk r evs =>
    rw [hq] at hp
    simp at hp
    rw [hp]
    rw [if_neg hH]
    cases hq2 : smtpSession cfg "ozzy.dave@gmail.com" false o.fallback with
    | mk r2 evs2 =>
      rw [hq2] at hf
      simp at hf
      rw [hf]

/-- Claim C9 counterexample: with a valid token, mail host configured, the
primary send failing (connection error) and the fallback session succeeding,
POST /test-email returns 200 — not the 502 the claim requires on a send
failure — and the one message actually transmitted goes to the hardcoded
address "ozzy.dave@gmail.com", not to the configured recipient. -/
theorem claim_C9_counterexample :
    (send_email_with_attachment
      ⟨"tok", "kindle@example.com", "smtp.example.com", 587, "", "", "f", false, 10⟩
      "kindle@example.com" true
      ⟨StepOutcome.exc "boom", StepOutcome.ok, LoginOutcome.ok, StepOutcome.ok⟩).1 =
      Except.error "Email failed: boom" ∧
    test_email
      ⟨"tok", "kindle@example.com", "smtp.example.com", 587, "", "", "f", false, 10⟩
      (some "Bearer tok")
      ⟨true, ⟨StepOutcome.exc "boom", StepOutcome.ok, LoginOutcome.ok, StepOutcome.ok⟩,
        ⟨StepOutcome.ok, StepOutcome.ok, LoginOutcome.ok, StepOutcome.ok⟩⟩ =
      (EndpointResponse.ok "kindle@example.com", [("ozzy.dave@gmail.com", false)]) ∧
    ("ozzy.dave@gmail.com" : String) ≠ "kindle@example.com" :=
  ⟨rfl, rfl, by decide⟩

/-- Claim C9 (amended): for every authorized request to POST /test-email, the
endpoint first attempts a test message (carrying an attachment part read from
/dev/null) to the configured recipient and returns 200 if that succeeds; if
the primary attempt raises, it attempts a plain no-attachment message to the
hardcoded address "ozzy.dave@gmail.com" and returns 200 if that succeeds; it
returns 502 only when the fallback also fails (or the mail host is unset). -/
theorem claim_C9_amended_test_email_mapping (cfg : Config) (a : Option String)
    (o : TestEmailOracle)
    (hA : require_bearer cfg.bearerToken a = Except.ok ()) :
    ((send_email_with_attachment cfg cfg.kindleEmail o.devNullExists o.primary).1 =
        Except.ok () →
      test_email cfg a o =
        (EndpointResponse.ok cfg.kindleEmail, [(cfg.kindleEmail, true)])) ∧
    (∀ m, (send_email_with_attachment cfg cfg.kindleEmail o.devNullExists o.primary).1 =
        Except.error m → cfg.smtpHost = "" →
      test_email cfg a o =
        (EndpointResponse.fail ⟨502, "SMTP_HOST is not set"⟩, [])) ∧
    (∀ m, (send_email_with_attachment cfg cfg.kindleEmail o.devNullExists o.primary).1 =
        Except.error m → cfg.smtpHost ≠ "" →
      (smtpSession cfg "ozzy.dave@gmail.com" false o.fallback).1 = Except.ok () →
      test_email cfg a o =
        (EndpointResponse.ok cfg.kindleEmail, [("ozzy.dave@gmail.com", false)])) ∧
    (∀ m m2, (send_email_with_attachment cfg cfg.kindleEmail o.devNullExists o.primary).1 =
        Except.error m → cfg.smtpHost ≠ "" →
      (smtpSession cfg "ozzy.dave@gmail.com" false o.fallback).1 = Except.error m2 →
      test_email cfg a o = (EndpointResponse.fail ⟨502, m2⟩, [])) :=
  ⟨fun hp => test_email_primary_ok cfg a o hA hp,
   fun m hp hH => test_email_host_unset cfg a o m hA hp hH,
   fun m hp hH hf => test_email_fallback_ok cfg a o m hA hp hH hf,
   fun m m2 hp hH hf => test_email_both_fail cfg a o m m2 hA hp hH hf⟩

theorem claim_C9_amended_witness :
    test_email
      ⟨"tok", "kindle@example.com", "smtp.example.com", 587, "", "", "f", false, 10⟩
      (some "Bearer tok")
      ⟨true, ⟨StepOutcome.ok, StepOutcome.ok, LoginOutcome.ok, StepOutcome.ok⟩,
        ⟨StepOutcome.ok, StepOutcome.ok, LoginOutcome.ok, StepOutcome.ok⟩⟩ =
      (EndpointResponse.ok "kindle@example.com", [("kindle@example.com", true)]) :=
  (claim_C9_amended_test_email_mapping
    ⟨"tok", "kindle@example.com", "smtp.example.com", 587, "", "", "f", false, 10⟩
    (some "Bearer tok")
    ⟨true, ⟨StepOutcome.ok, StepOutcome.ok, LoginOutcome.ok, StepOutcome.ok⟩,
      ⟨StepOutcome.ok, StepOutcome.ok, LoginOutcome.ok, StepOutcome.ok⟩⟩ rfl).1 rfl

/-- Claim C10: whenever the primary send in POST /test-email raises, and the
fallback path succeeds, the one message actually transmitted goes to the
hardcoded address "ozzy.dave@gmail.com" (with no attachment) rather than to
the configured recipient, yet the 200 body still reports `sent_to` as the
configured recipient address. -/
theorem claim_C10_fallback_hardcoded_recipient (cfg : Config)
    (a : Option String) (o : TestEmailOracle) (m : String)
    (hA : require_bearer cfg.bearerToken a = Except.ok ())
    (hp : (send_email_with_attachment cfg cfg.kindleEmail o.devNullExists o.primary).1 =
      Except.error m)
    (hH : ¬ cfg.smtpHost = "")
    (hf : (smtpSession cfg "ozzy.dave@gmail.com" false o.fallback).1 = Except.ok ()) :
    test_email cfg a o =
      (EndpointResponse.ok cfg.kindleEmail, [("ozzy.dave@gmail.com", false)]) :=
  test_email_fallback_ok cfg a o m hA hp hH hf

theorem claim_C10_witness :
    test_email
      ⟨"secret", "reader@kindle.com", "mail.example.org", 465, "", "", "f", false, 10⟩
      (some "Bearer secret")
      ⟨false, ⟨StepOutcome.ok, StepOutcome.ok, LoginOutcome.ok, StepOutcome.ok⟩,
        ⟨StepOutcome.ok, StepOutcome.ok, LoginOutcome.ok, StepOutcome.ok⟩⟩ =
      (EndpointResponse.ok "reader@kindle.com", [("ozzy.dave@gmail.com", false)]) :=
  claim_C10_fallback_hardcoded_recipient
    ⟨"secret", "reader@kindle.com", "mail.example.org", 465, "", "", "f", false, 10⟩
    (some "Bearer secret")
    ⟨false, ⟨StepOutcome.ok, StepOutcome.ok, LoginOutcome.ok, StepOutcome.ok⟩,
      ⟨StepOutcome.ok, StepOutcome.ok, LoginOutcome.ok, StepOutcome.ok⟩⟩
    "Attachment not found" rfl rfl (by decide) rfl

theorem claim_C2_witness :
    require_bearer "tok" (some "Bearer tok") = Except.ok () ∧
    require_bearer "tok" none = Except.error ⟨401, "Missing bearer token"⟩ ∧
    require_bearer "tok" (some "Bearer other") =
      Except.error ⟨403, "Invalid bearer token"⟩ :=
  ⟨(claim_C2_require_bearer_characterization "tok" (some "Bearer tok")).2.2.mpr
    ⟨"Bearer tok", rfl, rfl, by decide, rfl⟩,
   (claim_C2_require_bearer_characterization "tok" none).1.mpr (Or.inl rfl),
   (claim_C2_require_bearer_characterization "tok" (some "Bearer other")).2.1.mpr
    ⟨"Bearer other", rfl, rfl, by decide, by decide⟩⟩
